import Mathlib

/-!
Shallow embedding of the water-allocation repository's convergence engine
(src/frontend/script.js, the tuned variant at lines 129-308 and the slider
variant at lines 309-477) and of the embedded acquisition code
(src/unnamed/part_000 and src/arduino_water_allocation.ino).
JavaScript numbers are modelled as rationals; NaN is modelled as
Option.none where the source produces or tests for it.
-/

namespace WaterAlloc

/-- script.js line 318 (and line 138): minimum water-point jump to count as a bag event. -/
def SOUND_THRESHOLD : ℚ := 5

/-- script.js line 148: decay fraction per step in the tuned variant. -/
def DECAY_RATE : ℚ := 0.005

/-- script.js line 149: smallest amount of water removed per decay step (tuned variant). -/
def MIN_DECAY_STEP : ℚ := 2

/-- script.js line 151 (and 323): cap used when rendering the fill height. -/
def MAX_WATER_POINTS : ℚ := 200

/-- script.js line 320: decay fraction per step in the slider variant. -/
def DECAY_RATE_V3 : ℚ := 0.25

/-- script.js line 321: minimum decay step in the slider variant. -/
def MIN_DECAY_STEP_V3 : ℚ := 4

/-- JavaScript `x || 0` applied to a numeric value: 0 (falsy) maps to 0, everything
else to itself. -/
def jsOr0 (x : ℚ) : ℚ := if x = 0 then 0 else x

/-- Per-bucket client state: `target` is `lastValues[key]`, `displayed` is
`displayValues[key]` (script.js lines 153-154). -/
structure Bucket where
  target : ℚ
  displayed : ℚ
deriving DecidableEq

/-- Initial per-bucket state: both maps start at 0 (script.js lines 153-154). -/
def initBucket : Bucket := ⟨0, 0⟩

/-- `updateBar(key, value, options)` from script.js lines 237-260, restricted to one
bucket's state. Returns the new state and whether the sound/story event fired.
`targetOverride = some t` models `options.targetValue = t`; `none` models an absent
override, in which case the new target is `value` itself. The stored target is
`Math.max(0, newTarget)` (line 259); the displayed value rises instantly when
`value > displayValues[key]` (lines 243-245); the event test compares
`value - (lastValues[key] || 0)` against the threshold (lines 248-254). -/
def updateBar (b : Bucket) (value : ℚ) (targetOverride : Option ℚ) : Bucket × Bool :=
  let displayed1 := if b.displayed < value then value else b.displayed
  let previousTarget := jsOr0 b.target
  let diff := value - previousTarget
  let fired := decide (SOUND_THRESHOLD ≤ diff)
  let newTarget := targetOverride.getD value
  (⟨max 0 newTarget, displayed1⟩, fired)

/-- `updateBar(key, value)` from script.js lines 406-425 (slider variant): same rise
rule and event test, but the new target is stored as `value` directly (line 424),
with no lower clamp and no override. -/
def updateBarV3 (b : Bucket) (value : ℚ) : Bucket × Bool :=
  let displayed1 := if b.displayed < value then value else b.displayed
  let diff := value - jsOr0 b.target
  let fired := decide (SOUND_THRESHOLD ≤ diff)
  (⟨value, displayed1⟩, fired)

/-- One decay tick for one bucket, script.js lines 262-273 (and identically lines
427-438 with other constants): when `displayed > target` remove
`max(diff * rate, minStep)` but never drop below the target. -/
def decayTick (rate minStep : ℚ) (b : Bucket) : Bucket :=
  let target := jsOr0 b.target
  let current := b.displayed
  if target < current then
    let diff := current - target
    let decayAmount := max (diff * rate) minStep
    ⟨b.target, max target (current - decayAmount)⟩
  else b

/-- The rendered fill height percentage, script.js lines 228-235:
`Math.min(displayed / MAX_WATER_POINTS * 100, 100)`. -/
def fillPercent (displayed : ℚ) : ℚ := min (displayed / MAX_WATER_POINTS * 100) 100

/-- The `while (index === lastStoryIndex[key])` redraw loop of `showStory`
(script.js lines 282-284), fed by an explicit list of pseudo-random draws:
returns the first draw that differs from `l`, or `none` when the supplied
draws run out (the loop would still be redrawing). -/
def drawLoop (l : ℕ) : List ℕ → Option ℕ
  | [] => none
  | d :: rest => if d = l then drawLoop l rest else some d

/-- Index selection of `showStory` (script.js lines 280-285): take the first draw;
when a previous index exists and more than one option is available, redraw while
the draw equals the previous index. -/
def pickIndex (numOptions : ℕ) (last : Option ℕ) : List ℕ → Option ℕ
  | [] => none
  | d :: rest =>
    match last with
    | none => some d
    | some l => if 1 < numOptions then (if d = l then drawLoop l rest else some d) else some d

/-- `showStory(key)` narrative selection (script.js lines 275-296) for a bucket with
`numOptions` narrative lines, previous selection `last` (`lastStoryIndex[key]`), and
pseudo-random draw sequence `draws`. Returns the selected index, or `none` when the
option list is empty (early return, lines 277-279) or the draws run out. -/
def showStory (numOptions : ℕ) (last : Option ℕ) (draws : List ℕ) : Option ℕ :=
  if numOptions = 0 then none else pickIndex numOptions last draws

/-- The four logical buckets (script.js lines 153-154, fixed order). -/
inductive Key
  | food
  | ai
  | crops
  | animals
deriving DecidableEq

/-- Client state for all four buckets. -/
structure Store where
  food : Bucket
  ai : Bucket
  crops : Bucket
  animals : Bucket
deriving DecidableEq

/-- Page-load state: every bucket at target 0, displayed 0. -/
def initStore : Store := ⟨initBucket, initBucket, initBucket, initBucket⟩

def Store.get (st : Store) : Key → Bucket
  | Key.food => st.food
  | Key.ai => st.ai
  | Key.crops => st.crops
  | Key.animals => st.animals

def Store.set (st : Store) : Key → Bucket → Store
  | Key.food, b => { st with food := b }
  | Key.ai, b => { st with ai := b }
  | Key.crops, b => { st with crops := b }
  | Key.animals, b => { st with animals := b }

/-- One `updateBar(key, data[key])` application inside the `for key in data` loop of
`fetchData` (script.js lines 302-304): no target override on this path. -/
def applySample (st : Store) (k : Key) (v : ℚ) : Store :=
  st.set k (updateBar (st.get k) v none).1

/-- `fetchData` (script.js lines 298-306): when not in test mode, await the transport
result (fetch + json, modelled as one `Except`), then apply every entry through
`updateBar`. There is no try/catch, so a transport failure propagates out of the
function as a rejected result. -/
def fetchData (testMode : Bool) (resp : Except String (List (Key × ℚ))) (st : Store) :
    Except String Store :=
  if testMode then Except.ok st
  else
    match resp with
    | Except.error e => Except.error e
    | Except.ok data => Except.ok (data.foldl (fun s kv => applySample s kv.1 kv.2) st)

/-- The `setInterval(fetchData, 1000)` scheduler (script.js line 308): it invokes
`fetchData` and discards its result, a rejected promise included, so on failure the
store is left as it was. -/
def schedulerTick (testMode : Bool) (resp : Except String (List (Key × ℚ))) (st : Store) :
    Store :=
  match fetchData testMode resp st with
  | Except.ok s => s
  | Except.error _ => st

/-- One pass of the decay interval over all four buckets (script.js lines 262-273),
which runs on its own timer, independent of the fetch scheduler. -/
def decayStore (st : Store) : Store :=
  ⟨decayTick DECAY_RATE MIN_DECAY_STEP st.food,
   decayTick DECAY_RATE MIN_DECAY_STEP st.ai,
   decayTick DECAY_RATE MIN_DECAY_STEP st.crops,
   decayTick DECAY_RATE MIN_DECAY_STEP st.animals⟩

/-- One sensing channel at the moment of a read: the transient hardware readiness
line and the value `get_units` would report (src/unnamed/part_000 lines 3-10). -/
structure ScaleChannel where
  isReady : Bool
  units : ℚ
deriving DecidableEq

/-- `readWeight` (src/unnamed/part_000 lines 57-62): a single readiness check; a
not-ready channel yields NAN, modelled as `none`, and a ready channel yields
`get_units`, modelled as `some`. No wait loop occurs on this path. -/
def readWeight (ch : ScaleChannel) : Option ℚ :=
  if ch.isReady then some ch.units else none

/-- The per-channel emission inside `loop` (src/unnamed/part_000 lines 89-98): the
weight is read, `isnan` results are coerced to `0.0f`, and the resulting number is
printed into the CSV sample unconditionally. -/
def emitReading (ch : ScaleChannel) : ℚ :=
  match readWeight ch with
  | none => 0
  | some w => w

/-- The per-channel read in `loop` of src/arduino_water_allocation.ino lines 38-42:
`scale.is_ready() ? scale.read() : 0`, printed into the CSV sample. -/
def loopReadingIno (isReady : Bool) (raw : ℤ) : ℤ :=
  if isReady then raw else 0

/-- Mutable decay configuration (spec section 3, DecayConfig). -/
structure DecayConfig where
  decayRate : ℚ
  minDecayStep : ℚ
  decayIntervalMs : ℚ
  maxPoints : ℚ
deriving DecidableEq

/-- Modelled from the spec: the Config Sync component (spec sections 4.5 and 8) has
no implementation under src/ (the README notes the browser reads the decay rate
from the backend, but the fetching code is absent from the provided sources).
Spec words: fetch a remote decay-rate value; if it parses as a non-negative number,
replace `decayRate` and recompute `minDecayStep` as a fraction of
`decayRate * maxPoints` (never below zero); on fetch failure or invalid payload
(modelled as `none`) retain the previous configuration. The function is total: no
error is surfaced. -/
def configSync (cfg : DecayConfig) (remote : Option ℚ) (stepFraction : ℚ) : DecayConfig :=
  match remote with
  | none => cfg
  | some r =>
    if r < 0 then cfg
    else
      { cfg with
        decayRate := r
        minDecayStep := max 0 (stepFraction * (r * cfg.maxPoints)) }

/-! Helper lemmas. -/

lemma jsOr0_eq (x : ℚ) : jsOr0 x = x := by
  unfold jsOr0
  split <;> simp_all

lemma decayTick_target (rate minStep : ℚ) (b : Bucket) :
    (decayTick rate minStep b).target = b.target := by
  simp only [decayTick]
  split <;> rfl

lemma decayTick_displayed (rate minStep : ℚ) (b : Bucket) (h : b.target < b.displayed) :
    (decayTick rate minStep b).displayed
      = max b.target (b.displayed - max ((b.displayed - b.target) * rate) minStep) := by
  unfold decayTick
  rw [jsOr0_eq, if_pos h]

lemma decayTick_lower (rate minStep : ℚ) (b : Bucket) (h : b.target ≤ b.displayed) :
    b.target ≤ (decayTick rate minStep b).displayed := by
  simp only [decayTick, jsOr0_eq]
  split
  · exact le_max_left _ _
  · exact h

lemma decayTick_strict (rate minStep : ℚ) (b : Bucket) (hm : 0 < minStep)
    (h : b.target < b.displayed) :
    (decayTick rate minStep b).displayed < b.displayed := by
  rw [decayTick_displayed rate minStep b h]
  have hstep : minStep ≤ max ((b.displayed - b.target) * rate) minStep := le_max_right _ _
  exact max_lt h (by linarith)

lemma decayTick_upper (rate minStep : ℚ) (b : Bucket) :
    (decayTick rate minStep b).displayed ≤ max b.target (b.displayed - minStep) := by
  simp only [decayTick, jsOr0_eq]
  split
  · have hstep : minStep ≤ max ((b.displayed - b.target) * rate) minStep := le_max_right _ _
    exact max_le_max le_rfl (by linarith)
  · exact le_max_of_le_left (by linarith)

lemma decayTick_converge (rate minStep : ℚ) (hm : 0 < minStep) :
    ∀ (k : ℕ) (b : Bucket), b.target ≤ b.displayed →
      b.displayed ≤ b.target + k * minStep →
      ((decayTick rate minStep)^[k] b).displayed = b.target := by
  intro k
  induction k with
  | zero =>
    intro b h1 h2
    simp only [Nat.cast_zero, zero_mul, add_zero] at h2
    simpa using le_antisymm h2 h1
  | succ k ih =>
    intro b h1 h2
    rw [Function.iterate_succ_apply]
    have htg : (decayTick rate minStep b).target = b.target := decayTick_target rate minStep b
    have hlo : b.target ≤ (decayTick rate minStep b).displayed :=
      decayTick_lower rate minStep b h1
    have hup : (decayTick rate minStep b).displayed ≤ max b.target (b.displayed - minStep) :=
      decayTick_upper rate minStep b
    have hk : (0 : ℚ) ≤ (k : ℚ) * minStep := mul_nonneg (Nat.cast_nonneg k) hm.le
    have hcast : ((k + 1 : ℕ) : ℚ) = (k : ℚ) + 1 := by push_cast; ring
    have h2' : (decayTick rate minStep b).displayed ≤ b.target + k * minStep := by
      refine le_trans hup (max_le (by linarith) ?_)
      rw [hcast] at h2
      linarith
    have := ih (decayTick rate minStep b) (htg ▸ hlo) (htg ▸ h2')
    rwa [htg] at this

lemma decayTick_reaches (rate minStep : ℚ) (hm : 0 < minStep) (b : Bucket)
    (h1 : b.target ≤ b.displayed) :
    ∃ n : ℕ, ((decayTick rate minStep)^[n] b).displayed = b.target := by
  refine ⟨⌈(b.displayed - b.target) / minStep⌉₊, ?_⟩
  apply decayTick_converge rate minStep hm _ b h1
  have hle : (b.displayed - b.target) / minStep
      ≤ (⌈(b.displayed - b.target) / minStep⌉₊ : ℚ) := Nat.le_ceil _
  have := (div_le_iff₀ hm).mp hle
  linarith

/-! Claim theorems. -/

/-- Claim C1: one decay tick with `displayed > target` sets `displayed` to
`max(target, displayed - max((displayed - target) * decayRate, minDecayStep))`,
leaves the target alone, strictly decreases `displayed` when `minDecayStep > 0`,
never takes it below the target, and repeated ticks reach the target. -/
theorem claim_C1_decay_tick (rate minStep : ℚ) (b : Bucket)
    (hm : 0 < minStep) (hd : jsOr0 b.target < b.displayed) :
    (decayTick rate minStep b).displayed
        = max (jsOr0 b.target)
            (b.displayed - max ((b.displayed - jsOr0 b.target) * rate) minStep)
      ∧ (decayTick rate minStep b).displayed < b.displayed
      ∧ jsOr0 b.target ≤ (decayTick rate minStep b).displayed
      ∧ (decayTick rate minStep b).target = b.target
      ∧ ∃ n : ℕ, ((decayTick rate minStep)^[n] b).displayed = jsOr0 b.target := by
  rw [jsOr0_eq] at hd ⊢
  exact ⟨decayTick_displayed rate minStep b hd,
    decayTick_strict rate minStep b hm hd,
    decayTick_lower rate minStep b hd.le,
    decayTick_target rate minStep b,
    by
      have h := decayTick_reaches rate minStep hm b hd.le
      simpa [jsOr0_eq] using h⟩

/-- Claim C1 witness: the tuned constants at the concrete state
target 0, displayed 10. -/
theorem claim_C1_decay_tick_witness :
    0 < MIN_DECAY_STEP
      ∧ jsOr0 (Bucket.mk 0 10).target < (Bucket.mk 0 10).displayed
      ∧ ((decayTick DECAY_RATE MIN_DECAY_STEP (Bucket.mk 0 10)).displayed
            = max (jsOr0 (Bucket.mk 0 10).target)
                ((Bucket.mk 0 10).displayed
                  - max (((Bucket.mk 0 10).displayed - jsOr0 (Bucket.mk 0 10).target)
                      * DECAY_RATE) MIN_DECAY_STEP)
          ∧ (decayTick DECAY_RATE MIN_DECAY_STEP (Bucket.mk 0 10)).displayed
              < (Bucket.mk 0 10).displayed
          ∧ jsOr0 (Bucket.mk 0 10).target
              ≤ (decayTick DECAY_RATE MIN_DECAY_STEP (Bucket.mk 0 10)).displayed
          ∧ (decayTick DECAY_RATE MIN_DECAY_STEP (Bucket.mk 0 10)).target
              = (Bucket.mk 0 10).target
          ∧ ∃ n : ℕ, ((decayTick DECAY_RATE MIN_DECAY_STEP)^[n] (Bucket.mk 0 10)).displayed
              = jsOr0 (Bucket.mk 0 10).target) :=
  ⟨by norm_num [MIN_DECAY_STEP],
   by norm_num [jsOr0],
   claim_C1_decay_tick DECAY_RATE MIN_DECAY_STEP (Bucket.mk 0 10)
     (by norm_num [MIN_DECAY_STEP]) (by norm_num [jsOr0])⟩

/-- Claim C2: an `updateBar` call whose value is strictly greater than the current
displayed value sets `displayed` to that value in the same call, in both script
variants, with no decay tick involved. -/
theorem claim_C2_rise_instant (b : Bucket) (value : ℚ) (targetOverride : Option ℚ)
    (h : b.displayed < value) :
    (updateBar b value targetOverride).1.displayed = value
      ∧ (updateBarV3 b value).1.displayed = value := by
  constructor <;> simp [updateBar, updateBarV3, if_pos h]

/-- Claim C2 witness: at target 0, displayed 0, value 30. -/
theorem claim_C2_rise_instant_witness :
    (Bucket.mk 0 0).displayed < 30
      ∧ ((updateBar (Bucket.mk 0 0) 30 none).1.displayed = 30
          ∧ (updateBarV3 (Bucket.mk 0 0) 30).1.displayed = 30) :=
  ⟨by norm_num, claim_C2_rise_instant (Bucket.mk 0 0) 30 none (by norm_num)⟩

/-- Claim C3 counterexample: `updateBar` on the initial bucket with value 300 (no
override) stores target 300, strictly above `MAX_WATER_POINTS = 200`: the incoming
value is not clamped to `maxPoints` on ingestion. -/
theorem claim_C3_counterexample :
    (updateBar initBucket 300 none).1.target = 300
      ∧ MAX_WATER_POINTS < (updateBar initBucket 300 none).1.target := by
  constructor <;> norm_num [updateBar, initBucket, MAX_WATER_POINTS]

/-- Claim C3 amended: `updateBar` clamps the stored target below at 0
(`Math.max(0, newTarget)`) but applies no upper clamp, so the target is exactly
`max 0` of the requested target and may exceed `MAX_WATER_POINTS`; only the rendered
fill percentage is capped at 100. -/
theorem claim_C3_amended (b : Bucket) (value : ℚ) (targetOverride : Option ℚ) :
    0 ≤ (updateBar b value targetOverride).1.target
      ∧ (updateBar b value targetOverride).1.target = max 0 (targetOverride.getD value)
      ∧ fillPercent (updateBar b value targetOverride).1.displayed ≤ 100 :=
  ⟨le_max_left _ _, rfl, min_le_right _ _⟩

/-- Claim C4: the event fires exactly when `value - (lastValues[key] || 0)` is at
least `SOUND_THRESHOLD`; a delta exactly at the threshold fires, a delta one unit
below does not. -/
theorem claim_C4_threshold (b : Bucket) (value : ℚ) (targetOverride : Option ℚ) :
    ((updateBar b value targetOverride).2 = true
        ↔ SOUND_THRESHOLD ≤ value - jsOr0 b.target)
      ∧ (updateBar b (jsOr0 b.target + SOUND_THRESHOLD) targetOverride).2 = true
      ∧ (updateBar b (jsOr0 b.target + SOUND_THRESHOLD - 1) targetOverride).2 = false := by
  refine ⟨by simp [updateBar], ?_, ?_⟩
  · simp [updateBar]
  · simp only [updateBar, decide_eq_false_iff_not]
    norm_num [SOUND_THRESHOLD]
    linarith

lemma drawLoop_ne (l : ℕ) : ∀ (xs : List ℕ) (y : ℕ), drawLoop l xs = some y → y ≠ l := by
  intro xs
  induction xs with
  | nil =>
    intro y h
    simp [drawLoop] at h
  | cons d rest ih =>
    intro y h
    by_cases hd : d = l
    · rw [drawLoop, if_pos hd] at h
      exact ih y h
    · rw [drawLoop, if_neg hd] at h
      cases h
      exact hd

/-- Claim C5: with at least two narrative options, a successful `showStory`
selection after a previous selection `i` never returns `i` again. -/
theorem claim_C5_no_repeat (numOptions i j : ℕ) (draws : List ℕ)
    (h2 : 2 ≤ numOptions) (hsel : showStory numOptions (some i) draws = some j) :
    j ≠ i := by
  unfold showStory at hsel
  rw [if_neg (by omega)] at hsel
  cases draws with
  | nil => simp [pickIndex] at hsel
  | cons d rest =>
    rw [pickIndex, if_pos (by omega)] at hsel
    by_cases hd : d = i
    · rw [if_pos hd] at hsel
      exact drawLoop_ne i rest j hsel
    · rw [if_neg hd] at hsel
      cases hsel
      exact hd

/-- Claim C5 witness: four options, previous selection 2, draws 2, 2, 3 select
index 3, which differs from 2. -/
theorem claim_C5_no_repeat_witness :
    2 ≤ 4 ∧ showStory 4 (some 2) [2, 2, 3] = some 3 ∧ 3 ≠ 2 :=
  ⟨by norm_num, rfl, claim_C5_no_repeat 4 2 3 [2, 2, 3] (by norm_num) rfl⟩

/-- Claim C6 counterexample: a not-ready channel does not yield a suppressed
reading downstream — the acquisition loop emits 0 for it, the same number it emits
for a ready channel that measured 0, and the plain sketch's loop likewise turns a
not-ready channel into an emitted 0; so a not-ready channel is an emitted reading
indistinguishable from a measured zero, contrary to the claim. -/
theorem claim_C6_counterexample :
    emitReading (ScaleChannel.mk false 5) = 0
      ∧ emitReading (ScaleChannel.mk true 0) = 0
      ∧ loopReadingIno false 123 = 0
      ∧ loopReadingIno true 0 = 0 :=
  ⟨rfl, rfl, rfl, rfl⟩

/-- Claim C6 amended: `readWeight` checks the readiness flag once and returns no
reading (NaN) exactly for a not-ready channel — so not-ready is distinguishable
from a measured zero at the `readWeight` boundary and is not an error — but the
acquisition loop coerces the missing reading to 0 and emits it in the sample, so
downstream a not-ready channel appears as an emitted zero reading. -/
theorem claim_C6_amended (ch : ScaleChannel) :
    (readWeight ch = none ↔ ch.isReady = false)
      ∧ (ch.isReady = false → emitReading ch = 0)
      ∧ (ch.isReady = true → emitReading ch = ch.units) := by
  unfold readWeight emitReading
  cases hch : ch.isReady <;> simp [hch, readWeight]

/-- Claim C6 amended witness: a not-ready channel that would have measured 7, and a
ready channel measuring 7. -/
theorem claim_C6_amended_witness :
    readWeight (ScaleChannel.mk false 7) = none
      ∧ emitReading (ScaleChannel.mk false 7) = 0
      ∧ emitReading (ScaleChannel.mk true 7) = 7 :=
  ⟨(claim_C6_amended (ScaleChannel.mk false 7)).1.mpr rfl,
   (claim_C6_amended (ScaleChannel.mk false 7)).2.1 rfl,
   (claim_C6_amended (ScaleChannel.mk true 7)).2.2 rfl⟩

/-- Claim C7 counterexample: a ready channel with a small negative post-tare
reading emits that negative number unchanged — the loop only coerces NaN to zero
and applies no clamp at zero, so an emitted reading can be negative. -/
theorem claim_C7_counterexample :
    emitReading (ScaleChannel.mk true (-3)) = -3
      ∧ emitReading (ScaleChannel.mk true (-3)) < 0 :=
  ⟨rfl, by norm_num [emitReading, readWeight]⟩

/-- Claim C7 amended: NaN results (in particular pre-ready reads) are coerced to
zero before emission, but negative post-tare readings are not clamped: a ready
channel's value is emitted unchanged, negative values included. -/
theorem claim_C7_amended (u : ℚ) :
    emitReading (ScaleChannel.mk false u) = 0
      ∧ emitReading (ScaleChannel.mk true u) = u :=
  ⟨rfl, rfl⟩

/-- Claim C8 counterexample: a transport failure is not caught inside `fetchData` —
the error propagates out of the function as a rejected result instead of being
handled locally (there is no try/catch in script.js lines 298-306). -/
theorem claim_C8_counterexample :
    fetchData false (Except.error "Failed to fetch") initStore
      = Except.error "Failed to fetch" :=
  rfl

/-- Claim C8 amended: `fetchData` itself propagates a transport failure (it is not
caught locally), but the interval scheduler discards the rejected result, so the
bucket states are unchanged after a failed fetch, the decay pass (an independent
timer) is unaffected, and the next scheduled polling tick runs the fetch again from
the same state. -/
theorem claim_C8_amended (st : Store) (e : String)
    (resp2 : Except String (List (Key × ℚ))) :
    fetchData false (Except.error e) st = Except.error e
      ∧ schedulerTick false (Except.error e) st = st
      ∧ decayStore (schedulerTick false (Except.error e) st) = decayStore st
      ∧ schedulerTick false resp2 (schedulerTick false (Except.error e) st)
          = schedulerTick false resp2 st :=
  ⟨rfl, rfl, rfl, rfl⟩

/-- Claim C9: Config Sync (modelled from the spec, absent from src/) keeps the
whole previous configuration on a fetch failure or non-numeric payload and on a
negative remote value, and is total, so no error is surfaced. -/
theorem claim_C9_config_rejection (cfg : DecayConfig) (stepFraction r : ℚ)
    (hneg : r < 0) :
    configSync cfg none stepFraction = cfg
      ∧ configSync cfg (some r) stepFraction = cfg
      ∧ (configSync cfg (some r) stepFraction).decayRate = cfg.decayRate := by
  refine ⟨rfl, ?_, ?_⟩ <;> simp [configSync, if_pos hneg]

/-- Claim C9 witness: the slider variant's configuration and remote value -1. -/
theorem claim_C9_config_rejection_witness :
    (-1 : ℚ) < 0
      ∧ (configSync (DecayConfig.mk 0.25 4 800 200) none 0.02
            = DecayConfig.mk 0.25 4 800 200
          ∧ configSync (DecayConfig.mk 0.25 4 800 200) (some (-1)) 0.02
              = DecayConfig.mk 0.25 4 800 200
          ∧ (configSync (DecayConfig.mk 0.25 4 800 200) (some (-1)) 0.02).decayRate
              = (DecayConfig.mk 0.25 4 800 200).decayRate) :=
  ⟨by norm_num,
   claim_C9_config_rejection (DecayConfig.mk 0.25 4 800 200) 0.02 (-1) (by norm_num)⟩

/-- Claim C10: calling `updateBar` twice with the same value and no override is
idempotent from the second call on, in both script variants: the second call leaves
the bucket state unchanged and fires no event (its delta is at most 0, below the
positive threshold). -/
theorem claim_C10_idempotent (b : Bucket) (value : ℚ) :
    (updateBar (updateBar b value none).1 value none).1 = (updateBar b value none).1
      ∧ (updateBar (updateBar b value none).1 value none).2 = false
      ∧ (updateBarV3 (updateBarV3 b value).1 value).1 = (updateBarV3 b value).1
      ∧ (updateBarV3 (updateBarV3 b value).1 value).2 = false := by
  have hv : value ≤ (updateBar b value none).1.displayed := by
    show value ≤ if b.displayed < value then value else b.displayed
    split
    · exact le_rfl
    · rename_i h
      exact le_of_not_lt h
  have hv3 : value ≤ (updateBarV3 b value).1.displayed := by
    show value ≤ if b.displayed < value then value else b.displayed
    split
    · exact le_rfl
    · rename_i h
      exact le_of_not_lt h
  have htgt : (updateBar b value none).1.target = max 0 value := rfl
  have hdiff : value - jsOr0 (max 0 value) ≤ 0 := by
    rw [jsOr0_eq]
    have := le_max_right (0 : ℚ) value
    linarith
  have hdiff3 : value - jsOr0 value ≤ 0 := by
    rw [jsOr0_eq]
    linarith
  refine ⟨?_, ?_, ?_, ?_⟩
  · show (⟨max 0 value,
        if (updateBar b value none).1.displayed < value then value
        else (updateBar b value none).1.displayed⟩ : Bucket) = (updateBar b value none).1
    rw [if_neg (not_lt.mpr hv)]
    rfl
  · show decide (SOUND_THRESHOLD ≤ value - jsOr0 (updateBar b value none).1.target) = false
    rw [htgt]
    simp only [decide_eq_false_iff_not, SOUND_THRESHOLD]
    intro hcon
    linarith
  · show (⟨value,
        if (updateBarV3 b value).1.displayed < value then value
        else (updateBarV3 b value).1.displayed⟩ : Bucket) = (updateBarV3 b value).1
    rw [if_neg (not_lt.mpr hv3)]
    rfl
  · show decide (SOUND_THRESHOLD ≤ value - jsOr0 (updateBarV3 b value).1.target) = false
    simp only [decide_eq_false_iff_not, SOUND_THRESHOLD]
    intro hcon
    have : (updateBarV3 b value).1.target = value := rfl
    rw [this, jsOr0_eq] at hcon
    linarith

end WaterAlloc
